import Mathlib

attribute [local semireducible] Rat.add Rat.mul Rat.inv Rat.sub

/-!
Shallow embedding of the drift-detection engine of this repository
(`src/monitoring/drift_detector.py`).

Modelling conventions:
* Python floats are modelled as rationals (`ℚ`); a float NaN is `none`
  in `Option ℚ`.  A pandas `Series` of floats is a `List (Option ℚ)`
  whose `none` entries are the missing values.
* The external numerical library calls (`np.log`, the square root used
  by `Series.std`, `scipy.stats.ks_2samp`, `scipy.stats.mannwhitneyu`)
  are not code of this repository; they are abstracted as the fields of
  a `MathLib` parameter, so every theorem below holds for any behaviour
  of those external routines.
* A Python `dict` built by inserting distinct keys in a fixed order is
  modelled as an association list in that insertion order.
* A raised `ValueError` is modelled as the `Except.error` branch of an
  `Except String` result; code that cannot raise is a total function.
-/

namespace Drift

/-- A pandas Series of floats: `none` models a missing value (NaN). -/
abbrev Sample := List (Option ℚ)

/-- Series.dropna: the list of non-missing values, in order. -/
def dropna (s : Sample) : List ℚ := s.filterMap id

/-- Series.min on a cleaned sample (the `[]` case is unreachable in the
code paths modelled, which test emptiness first). -/
def listMin : List ℚ → ℚ
  | [] => 0
  | x :: xs => xs.foldl min x

/-- Series.max on a cleaned sample. -/
def listMax : List ℚ → ℚ
  | [] => 0
  | x :: xs => xs.foldl max x

/-- The external numerical/statistical routines used by the detector
(numpy natural log, the square root inside pandas std, and the two
scipy two-sample tests returning a statistic/p-value pair).  They are
abstract: the theorems hold for every instantiation. -/
structure MathLib where
  log : ℚ → ℚ
  sqrt : ℚ → ℚ
  ks_2samp : List ℚ → List ℚ → ℚ × ℚ
  mannwhitneyu : List ℚ → List ℚ → ℚ × ℚ

/-- Edge i of np.linspace(min_val, max_val, bins + 1). -/
def binEdge (min_val max_val : ℚ) (bins i : ℕ) : ℚ :=
  min_val + (max_val - min_val) * i / bins

/-- Membership of a value in bin i of np.histogram with those edges:
half-open bins, except the last bin which also contains the right
endpoint. -/
def inBin (min_val max_val : ℚ) (bins i : ℕ) (v : ℚ) : Bool :=
  if i + 1 = bins then
    decide (binEdge min_val max_val bins i ≤ v ∧ v ≤ binEdge min_val max_val bins bins)
  else
    decide (binEdge min_val max_val bins i ≤ v ∧ v < binEdge min_val max_val bins (i + 1))

/-- np.histogram counts over the linspace bin edges. -/
def histCounts (l : List ℚ) (min_val max_val : ℚ) (bins : ℕ) : List ℕ :=
  (List.range bins).map (fun i => l.countP (fun v => inBin min_val max_val bins i v))

/-- counts / len: normalisation of a histogram to a probability vector. -/
def normalize (counts : List ℕ) (n : ℕ) : List ℚ :=
  counts.map (fun c : ℕ => (c : ℚ) / (n : ℚ))

/-- The epsilon of calculate_psi (1e-6). -/
def epsPSI : ℚ := 1 / 1000000

/-- np.where(probs == 0, epsilon, probs). -/
def zeroToEps (probs : List ℚ) : List ℚ :=
  probs.map (fun p => if p = 0 then epsPSI else p)

/-- np.sum((actual_probs - expected_probs) * np.log(actual_probs / expected_probs)):
elementwise combination of the two equal-length probability vectors, then summed. -/
def psiSum (lg : ℚ → ℚ) (expected_probs actual_probs : List ℚ) : ℚ :=
  (List.zipWith (fun a e => (a - e) * lg (a / e)) actual_probs expected_probs).sum

/-- calculate_psi (drift_detector.py lines 18-74).  `none` is the NaN
sentinel returned for an empty cleaned sample.  The surrounding
`try/except` only converts exceptions of the external numerics into
NaN; the modelled computation is total, so it has no counterpart. -/
def calculate_psi (lg : ℚ → ℚ) (expected actual : Sample) (bins : ℕ) : Option ℚ :=
  let expected_clean := dropna expected
  let actual_clean := dropna actual
  if expected_clean.isEmpty || actual_clean.isEmpty then none
  else
    let min_val := min (listMin expected_clean) (listMin actual_clean)
    let max_val := max (listMax expected_clean) (listMax actual_clean)
    if min_val = max_val then some 0
    else
      let expected_probs :=
        zeroToEps (normalize (histCounts expected_clean min_val max_val bins) expected_clean.length)
      let actual_probs :=
        zeroToEps (normalize (histCounts actual_clean min_val max_val bins) actual_clean.length)
      some (psiSum lg expected_probs actual_probs)

/-- The dictionary returned by compare_distributions: statistic and
p-value are `none` when NaN. -/
structure TestResult where
  statistic : Option ℚ
  p_value : Option ℚ
  significant : Bool
deriving DecidableEq

/-- compare_distributions (drift_detector.py lines 77-133).  Note the
source checks emptiness of the cleaned samples before validating the
test tag, so the sentinel shape is returned for empty input even under
an unknown tag.  The raised ValueError is the `Except.error` branch
(the source re-raises it past its catch-all handler). -/
def compare_distributions (M : MathLib) (baseline current : Sample) (test_type : String) :
    Except String TestResult :=
  let baseline_clean := dropna baseline
  let current_clean := dropna current
  if baseline_clean.isEmpty || current_clean.isEmpty then
    Except.ok { statistic := none, p_value := none, significant := false }
  else if test_type ∉ (["ks", "mannwhitney"] : List String) then
    Except.error ("Unknown test type: " ++ test_type)
  else
    let r :=
      if test_type = ("ks") then M.ks_2samp baseline_clean current_clean
      else M.mannwhitneyu baseline_clean current_clean
    Except.ok { statistic := some r.1, p_value := some r.2, significant := decide (r.2 < 5/100) }

/-- Python comparison `x > t` where x may be NaN (`none`): NaN compares
false. -/
def nanGt (x : Option ℚ) (t : ℚ) : Bool :=
  match x with
  | some v => decide (t < v)
  | none => false

/-- Python comparison `x < t` where x may be NaN: NaN compares false. -/
def nanLt (x : Option ℚ) (t : ℚ) : Bool :=
  match x with
  | some v => decide (v < t)
  | none => false

/-- Python subtraction on possibly-NaN floats: NaN propagates. -/
def nanSub : Option ℚ → Option ℚ → Option ℚ
  | some a, some b => some (a - b)
  | _, _ => none

/-- The pattern `(shift / base * 100) if base != 0 else 0` on
possibly-NaN floats: a NaN base passes the `!= 0` test, and NaN then
propagates through the division. -/
def shiftPct (shiftv basev : Option ℚ) : Option ℚ :=
  if basev = some 0 then some 0
  else
    match shiftv, basev with
    | some s, some b => some (s / b * 100)
    | _, _ => none

/-- Series.mean (skips missing values; NaN when no value remains). -/
def seriesMean (s : Sample) : Option ℚ :=
  let l := dropna s
  if l.isEmpty then none else some (l.sum / l.length)

/-- Series.std (sample standard deviation, ddof = 1; NaN when fewer
than two values remain).  The square root is the abstract external
`sqrt`. -/
def seriesStd (sqrt : ℚ → ℚ) (s : Sample) : Option ℚ :=
  let l := dropna s
  if l.length < 2 then none
  else
    let m := l.sum / l.length
    some (sqrt ((l.map (fun x => (x - m) * (x - m))).sum / ((l.length : ℚ) - 1)))

/-- The DriftDetector configuration: the three constructor thresholds
(defaults 0.2, 0.05, 0.10), immutable after construction. -/
structure DriftDetector where
  psi_threshold : ℚ
  accuracy_degradation_threshold : ℚ
  accuracy_critical_threshold : ℚ
deriving DecidableEq

/-- Association-list lookup, first match wins (dict / DataFrame column
access by name). -/
def alistGet? {α : Type} : List (String × α) → String → Option α
  | [], _ => none
  | (k, v) :: t, c => if k = c then some v else alistGet? t c

/-- A DataFrame restricted to what the detector reads: named numeric
columns in order. -/
abbrev DataFrame := List (String × Sample)

/-- The column names of a DataFrame (all columns are numeric in this
model, so this is also the auto-detected numeric column list). -/
def colNames (df : DataFrame) : List String := df.map Prod.fst

/-- One per-feature result dictionary of calculate_feature_drift. -/
structure FeatureDriftRecord where
  psi : Option ℚ
  psi_alert : Bool
  ks_statistic : Option ℚ
  ks_p_value : Option ℚ
  ks_significant : Bool
  baseline_mean : Option ℚ
  current_mean : Option ℚ
  mean_shift : Option ℚ
  mean_shift_pct : Option ℚ
  baseline_std : Option ℚ
  current_std : Option ℚ
  std_shift : Option ℚ
  std_shift_pct : Option ℚ
  has_drift : Bool
  drift_severity : String
deriving DecidableEq

/-- The KS comparison as used inside calculate_feature_drift (line
195): compare_distributions with the 'ks' tag, which never takes the
error branch; the dead error arm maps to the sentinel shape. -/
def ksResult (M : MathLib) (baseline current : Sample) : TestResult :=
  match compare_distributions M baseline current ("ks") with
  | Except.ok r => r
  | Except.error _ => { statistic := none, p_value := none, significant := false }

/-- The loop body of calculate_feature_drift (lines 188-232) for one
column present in both DataFrames: PSI, KS comparison, summary
statistics, the has_drift flag and the severity label. -/
def DriftDetector.mkFeatureRecord (d : DriftDetector) (M : MathLib)
    (baseline_series current_series : Sample) : FeatureDriftRecord :=
  let psi := calculate_psi M.log baseline_series current_series 10
  let ks_test := ksResult M baseline_series current_series
  let baseline_mean := seriesMean baseline_series
  let current_mean := seriesMean current_series
  let mean_shift := nanSub current_mean baseline_mean
  let mean_shift_pct := shiftPct mean_shift baseline_mean
  let baseline_std := seriesStd M.sqrt baseline_series
  let current_std := seriesStd M.sqrt current_series
  let std_shift := nanSub current_std baseline_std
  let std_shift_pct := shiftPct std_shift baseline_std
  { psi := psi
    psi_alert := nanGt psi d.psi_threshold
    ks_statistic := ks_test.statistic
    ks_p_value := ks_test.p_value
    ks_significant := ks_test.significant
    baseline_mean := baseline_mean
    current_mean := current_mean
    mean_shift := mean_shift
    mean_shift_pct := mean_shift_pct
    baseline_std := baseline_std
    current_std := current_std
    std_shift := std_shift
    std_shift_pct := std_shift_pct
    has_drift := nanGt psi d.psi_threshold || ks_test.significant
    drift_severity :=
      if nanGt psi d.psi_threshold then
        (if nanGt psi (1/2) then ("high") else ("medium"))
      else if ks_test.significant then ("low")
      else ("none") }

/-- calculate_feature_drift (lines 161-234): iterate the requested
columns (or the auto-detected baseline columns when `none`), skip a
column missing from either DataFrame, and key the result dictionary by
column in iteration order. -/
def DriftDetector.calculate_feature_drift (d : DriftDetector) (M : MathLib)
    (baseline_data current_data : DataFrame) (numeric_columns : Option (List String)) :
    List (String × FeatureDriftRecord) :=
  let cols := numeric_columns.getD (colNames baseline_data)
  cols.filterMap (fun col =>
    match alistGet? baseline_data col, alistGet? current_data col with
    | some bs, some cs => some (col, d.mkFeatureRecord M bs cs)
    | _, _ => none)

/-- One per-metric result dictionary of compare_performance. -/
structure PerformanceRecord where
  baseline : ℚ
  current : ℚ
  degradation : ℚ
  degradation_pct : ℚ
  alert_level : String
deriving DecidableEq

/-- The loop body of compare_performance (lines 257-288) for one metric
present in both mappings.  Note the guard on the percentage is
`baseline_value > 0` in the source. -/
def DriftDetector.mkPerfRecord (d : DriftDetector) (metric_name : String)
    (baseline_value current_value : ℚ) : PerformanceRecord :=
  let degradation := baseline_value - current_value
  let degradation_pct := if baseline_value > 0 then degradation / baseline_value * 100 else 0
  { baseline := baseline_value
    current := current_value
    degradation := degradation
    degradation_pct := degradation_pct
    alert_level :=
      if metric_name = ("accuracy") then
        (if degradation_pct ≥ d.accuracy_critical_threshold * 100 then ("critical")
         else if degradation_pct ≥ d.accuracy_degradation_threshold * 100 then ("warning")
         else ("none"))
      else
        (if degradation_pct ≥ 10 then ("critical")
         else if degradation_pct ≥ 5 then ("warning")
         else ("none")) }

/-- compare_performance (lines 236-290): the four recognised metric
names in their fixed order, skipping any metric missing from either
mapping. -/
def DriftDetector.compare_performance (d : DriftDetector)
    (baseline_metrics current_metrics : List (String × ℚ)) :
    List (String × PerformanceRecord) :=
  (["accuracy", "precision", "recall", "f1"] : List String).filterMap (fun metric_name =>
    match alistGet? baseline_metrics metric_name, alistGet? current_metrics metric_name with
    | some b, some c => some (metric_name, d.mkPerfRecord metric_name b c)
    | _, _ => none)

/-- One alert dictionary.  Fields that a given alert kind does not
carry are `none`.  The human-readable `message` string is decimal
float formatting (presentation only) and is not modelled. -/
structure Alert where
  type : String
  feature : Option String
  metric : Option String
  level : String
  psi : Option ℚ
  mean_shift_pct : Option ℚ
  ks_p_value : Option ℚ
  degradation_pct : Option ℚ
  baseline : Option ℚ
  current : Option ℚ
deriving DecidableEq

/-- The feature-drift arm of the alert loop (lines 365-382): one alert
per record with a PSI alert (critical above PSI 0.5, else warning),
otherwise one warning alert when only the KS test fired, otherwise
nothing. -/
def featureAlert? (feature : String) (metrics : FeatureDriftRecord) : Option Alert :=
  if metrics.psi_alert then
    some { type := ("feature_drift")
           feature := some feature
           metric := none
           level := if nanGt metrics.psi (1/2) then ("critical") else ("warning")
           psi := metrics.psi
           mean_shift_pct := metrics.mean_shift_pct
           ks_p_value := none
           degradation_pct := none
           baseline := none
           current := none }
  else if metrics.ks_significant then
    some { type := ("feature_drift")
           feature := some feature
           metric := none
           level := ("warning")
           psi := none
           mean_shift_pct := none
           ks_p_value := metrics.ks_p_value
           degradation_pct := none
           baseline := none
           current := none }
  else none

/-- The performance arm of the alert loop (lines 385-405): one alert
per record whose alert level is critical, else one per record whose
alert level is warning. -/
def perfAlert? (metric_name : String) (metrics : PerformanceRecord) : Option Alert :=
  if metrics.alert_level = ("critical") then
    some { type := ("performance_degradation")
           feature := none
           metric := some metric_name
           level := ("critical")
           psi := none
           mean_shift_pct := none
           ks_p_value := none
           degradation_pct := some metrics.degradation_pct
           baseline := some metrics.baseline
           current := some metrics.current }
  else if metrics.alert_level = ("warning") then
    some { type := ("performance_degradation")
           feature := none
           metric := some metric_name
           level := ("warning")
           psi := none
           mean_shift_pct := none
           ks_p_value := none
           degradation_pct := some metrics.degradation_pct
           baseline := some metrics.baseline
           current := some metrics.current }
  else none

/-- Method _generate_alerts (lines 347-407): feature alerts in feature-mapping
order, then performance alerts in performance-mapping order. -/
def generate_alerts (feature_drift : List (String × FeatureDriftRecord))
    (performance_drift : List (String × PerformanceRecord)) : List Alert :=
  feature_drift.filterMap (fun p => featureAlert? p.1 p.2) ++
    performance_drift.filterMap (fun p => perfAlert? p.1 p.2)

/-- The summary block of the drift report. -/
structure DriftSummary where
  total_features_analyzed : ℕ
  features_with_drift : ℕ
  total_alerts : ℕ
  critical_alerts : ℕ
  warning_alerts : ℕ
deriving DecidableEq

/-- The full drift report returned by detect_drift. -/
structure DriftReport where
  feature_drift : List (String × FeatureDriftRecord)
  performance_drift : List (String × PerformanceRecord)
  alerts : List Alert
  summary : DriftSummary
deriving DecidableEq

/-- detect_drift (lines 292-345): feature drift, performance drift,
alerts, and the summary counters. -/
def DriftDetector.detect_drift (d : DriftDetector) (M : MathLib)
    (baseline_data current_data : DataFrame)
    (baseline_metrics current_metrics : List (String × ℚ))
    (numeric_columns : Option (List String)) : DriftReport :=
  let feature_drift := d.calculate_feature_drift M baseline_data current_data numeric_columns
  let performance_drift := d.compare_performance baseline_metrics current_metrics
  let alerts := generate_alerts feature_drift performance_drift
  { feature_drift := feature_drift
    performance_drift := performance_drift
    alerts := alerts
    summary :=
      { total_features_analyzed := feature_drift.length
        features_with_drift := (feature_drift.filter (fun p => p.2.has_drift)).length
        total_alerts :=
          (alerts.filter (fun a => a.level = ("warning") || a.level = ("critical"))).length
        critical_alerts := (alerts.filter (fun a => a.level = ("critical"))).length
        warning_alerts := (alerts.filter (fun a => a.level = ("warning"))).length } }

/-! Spec-side definitions, written from the specification's wording, to
be compared with the source-side definitions above. -/

/-- Spec 4.1 wording: the width of one of the `bins` equal-width bins
spanning [lo, hi]. -/
def specBinWidth (lo hi : ℚ) (bins : ℕ) : ℚ := (hi - lo) / bins

/-- Spec 4.1 wording: membership in the i-th equal-width bin; the last
bin also contains the right endpoint hi. -/
def specInBin (lo hi : ℚ) (bins i : ℕ) (v : ℚ) : Bool :=
  if i + 1 = bins then
    decide (lo + i * specBinWidth lo hi bins ≤ v ∧ v ≤ hi)
  else
    decide (lo + i * specBinWidth lo hi bins ≤ v ∧ v < lo + (i + 1) * specBinWidth lo hi bins)

/-- Spec 4.1 wording: the bin-occupancy probability of bin i (count
over sample size), with any zero probability replaced by 1e-6. -/
def specBinProb (l : List ℚ) (lo hi : ℚ) (bins i : ℕ) : ℚ :=
  let p := ((l.filter (fun v => specInBin lo hi bins i v)).length : ℚ) / l.length
  if p = 0 then 1 / 1000000 else p

/-- Spec 4.1 wording: PSI as the sum over the `bins` equal-width bins
spanning the combined minimum and maximum of both cleaned samples of
(actual_p - expected_p) * ln(actual_p / expected_p). -/
def psiSpec (lg : ℚ → ℚ) (e a : List ℚ) (bins : ℕ) : ℚ :=
  Finset.sum (Finset.range bins) (fun i =>
    (specBinProb a (listMin (e ++ a)) (listMax (e ++ a)) bins i -
        specBinProb e (listMin (e ++ a)) (listMax (e ++ a)) bins i) *
      lg (specBinProb a (listMin (e ++ a)) (listMax (e ++ a)) bins i /
          specBinProb e (listMin (e ++ a)) (listMax (e ++ a)) bins i))

/-- Spec 4.5 wording, feature arm: when `psi_alert` is set, one
feature_drift alert, critical when PSI is above 0.5 and warning
otherwise, carrying the PSI and mean-shift-pct fields; else when
`ks_significant` is set, one feature_drift warning alert carrying the
p-value; else nothing. -/
def specFeatureAlert (feature : String) (m : FeatureDriftRecord) : Option Alert :=
  if m.psi_alert then
    some { type := ("feature_drift")
           feature := some feature
           metric := none
           level := if nanGt m.psi (1/2) then ("critical") else ("warning")
           psi := m.psi
           mean_shift_pct := m.mean_shift_pct
           ks_p_value := none
           degradation_pct := none
           baseline := none
           current := none }
  else if m.ks_significant then
    some { type := ("feature_drift")
           feature := some feature
           metric := none
           level := ("warning")
           psi := none
           mean_shift_pct := none
           ks_p_value := m.ks_p_value
           degradation_pct := none
           baseline := none
           current := none }
  else none

/-- Spec 4.5 wording, performance arm: for a record whose alert level
is critical or warning, one performance_degradation alert at that
level carrying degradation_pct, baseline and current. -/
def specPerfAlert (metric_name : String) (r : PerformanceRecord) : Option Alert :=
  if r.alert_level = ("critical") ∨ r.alert_level = ("warning") then
    some { type := ("performance_degradation")
           feature := none
           metric := some metric_name
           level := r.alert_level
           psi := none
           mean_shift_pct := none
           ks_p_value := none
           degradation_pct := some r.degradation_pct
           baseline := some r.baseline
           current := some r.current }
  else none

/-- Spec 4.5 wording: alerts in feature-mapping iteration order, then
performance-mapping iteration order, no deduplication. -/
def specAlerts (feature_drift : List (String × FeatureDriftRecord))
    (performance_drift : List (String × PerformanceRecord)) : List Alert :=
  feature_drift.filterMap (fun p => specFeatureAlert p.1 p.2) ++
    performance_drift.filterMap (fun p => specPerfAlert p.1 p.2)

/-! Concrete fixtures used by witnesses and counterexamples. -/

/-- A concrete external library: identity log and sqrt, and two-sample
tests that always return statistic 0 with p-value 1. -/
def M0 : MathLib :=
  { log := fun q => q
    sqrt := fun q => q
    ks_2samp := fun _ _ => (0, 1)
    mannwhitneyu := fun _ _ => (0, 1) }

/-- The detector with its default thresholds (0.2, 0.05, 0.10). -/
def d0 : DriftDetector :=
  { psi_threshold := 1/5
    accuracy_degradation_threshold := 1/20
    accuracy_critical_threshold := 1/10 }

/-- A one-column DataFrame with the single value 1. -/
def df0 : DataFrame := [("x", [some 1])]

/-- The feature record produced for that column compared with itself. -/
def r0 : FeatureDriftRecord := d0.mkFeatureRecord M0 [some 1] [some 1]

/-- A log-like external function (zero at 1, negative below 1,
positive above) used in the severity counterexample. -/
def MC2 : MathLib :=
  { log := fun q => if q < 1 then -2 else if q = 1 then 0 else 2
    sqrt := fun q => q
    ks_2samp := fun _ _ => (0, 1)
    mannwhitneyu := fun _ _ => (0, 1) }

/-- A detector configured with a PSI threshold above 0.5. -/
def dC2 : DriftDetector :=
  { psi_threshold := 4
    accuracy_degradation_threshold := 1/20
    accuracy_critical_threshold := 1/10 }

/-- Baseline sample: nine 0s and one 1. -/
def bsC2 : Sample := List.replicate 9 (some 0) ++ [some 1]

/-- Current sample: one 0 and nine 1s. -/
def csC2 : Sample := (some 0) :: List.replicate 9 (some 1)

def bdC2 : DataFrame := [("x", bsC2)]

def cdC2 : DataFrame := [("x", csC2)]

/-- The feature record of the severity counterexample (its PSI under
MC2 is 16/5, strictly above 0.5 but not above the threshold 4). -/
def rC2 : FeatureDriftRecord := dC2.mkFeatureRecord MC2 bsC2 csC2

/-- A baseline DataFrame whose only column is entirely missing. -/
def bdN : DataFrame := [("x", [none])]

def cdN : DataFrame := [("x", [some 1])]

/-- The feature record for an all-missing baseline column: its PSI is
the NaN sentinel. -/
def rN : FeatureDriftRecord := d0.mkFeatureRecord M0 [none] [some 1]

/-- The accuracy comparison record for baseline 0.95, current 0.90. -/
def rA : PerformanceRecord := d0.mkPerfRecord ("accuracy") (19/20) (9/10)

/-- The accuracy comparison record for a negative baseline, where the
source's `baseline > 0` guard diverges from the claimed formula. -/
def rC5 : PerformanceRecord := d0.mkPerfRecord ("accuracy") (-1) (-2)

/-! Helper lemmas. -/

theorem isEmpty_false_of_ne_nil {l : List ℚ} (h : l ≠ []) : l.isEmpty = false := by
  cases l with
  | nil => exact absurd rfl h
  | cons x t => rfl

theorem mem_calculate_feature_drift {M : MathLib} {d : DriftDetector} {bd cd : DataFrame}
    {cols : Option (List String)} {col : String} {r : FeatureDriftRecord}
    (h : (col, r) ∈ d.calculate_feature_drift M bd cd cols) :
    ∃ bs cs, alistGet? bd col = some bs ∧ alistGet? cd col = some cs ∧
      r = d.mkFeatureRecord M bs cs := by
  unfold DriftDetector.calculate_feature_drift at h
  rw [List.mem_filterMap] at h
  obtain ⟨c, _, hfc⟩ := h
  cases hb : alistGet? bd c with
  | none => rw [hb] at hfc; simp at hfc
  | some bs =>
    cases hcd : alistGet? cd c with
    | none => rw [hb, hcd] at hfc; simp at hfc
    | some cs =>
      rw [hb, hcd] at hfc
      simp only [Option.some.injEq, Prod.mk.injEq] at hfc
      obtain ⟨hceq, hreq⟩ := hfc
      subst hceq
      exact ⟨bs, cs, hb, hcd, hreq.symm⟩

theorem mem_compare_performance {d : DriftDetector} {bm cm : List (String × ℚ)}
    {m : String} {r : PerformanceRecord} (h : (m, r) ∈ d.compare_performance bm cm) :
    ∃ b c, alistGet? bm m = some b ∧ alistGet? cm m = some c ∧
      r = d.mkPerfRecord m b c := by
  unfold DriftDetector.compare_performance at h
  rw [List.mem_filterMap] at h
  obtain ⟨n, _, hfn⟩ := h
  cases hb : alistGet? bm n with
  | none => rw [hb] at hfn; simp at hfn
  | some b =>
    cases hc : alistGet? cm n with
    | none => rw [hb, hc] at hfn; simp at hfn
    | some c =>
      rw [hb, hc] at hfn
      simp only [Option.some.injEq, Prod.mk.injEq] at hfn
      obtain ⟨hneq, hreq⟩ := hfn
      subst hneq
      exact ⟨b, c, hb, hc, hreq.symm⟩

theorem ksResult_significant_eq (M : MathLib) (b c : Sample) :
    (ksResult M b c).significant = nanLt (ksResult M b c).p_value (5/100) := by
  unfold ksResult compare_distributions
  by_cases hb : ((dropna b).isEmpty || (dropna c).isEmpty) = true
  · simp [hb, nanLt]
  · simp [hb, nanLt]

/-! Claim theorems. -/

/-- Claim C1: in every feature drift record produced by
calculate_feature_drift (and detect_drift reports exactly that
mapping), has_drift equals psi_alert or-ed with ks_significant, where
psi_alert is the (NaN-false) comparison of PSI against the configured
threshold and ks_significant is the (NaN-false) comparison of the KS
p-value against 0.05. -/
theorem claim1_has_drift_invariant (M : MathLib) (d : DriftDetector) (bd cd : DataFrame)
    (bm cm : List (String × ℚ)) (cols : Option (List String)) (col : String)
    (r : FeatureDriftRecord) (h : (col, r) ∈ d.calculate_feature_drift M bd cd cols) :
    (r.has_drift = (r.psi_alert || r.ks_significant) ∧
      r.psi_alert = nanGt r.psi d.psi_threshold ∧
      r.ks_significant = nanLt r.ks_p_value (5/100)) ∧
    (d.detect_drift M bd cd bm cm cols).feature_drift = d.calculate_feature_drift M bd cd cols := by
  obtain ⟨bs, cs, _, _, hr⟩ := mem_calculate_feature_drift h
  subst hr
  exact ⟨⟨rfl, rfl, ksResult_significant_eq M bs cs⟩, rfl⟩

/-- Witness for C1 at a concrete record. -/
theorem claim1_has_drift_invariant_witness :
    (("x", r0) ∈ d0.calculate_feature_drift M0 df0 df0 (some ["x"])) ∧
      r0.has_drift = (r0.psi_alert || r0.ks_significant) :=
  ⟨by decide,
    (claim1_has_drift_invariant M0 d0 df0 df0 [] [] (some ["x"]) ("x") r0 (by decide)).1.1⟩

/-- Claim C2, amended: drift_severity is high when PSI exceeds the
configured threshold and 0.5, medium when PSI exceeds the threshold
but not 0.5, low when the threshold is not exceeded but the KS test
fired, none otherwise. -/
theorem claim2_amended_severity (M : MathLib) (d : DriftDetector) (bd cd : DataFrame)
    (cols : Option (List String)) (col : String) (r : FeatureDriftRecord)
    (h : (col, r) ∈ d.calculate_feature_drift M bd cd cols) :
    r.drift_severity =
      (if nanGt r.psi d.psi_threshold then
        (if nanGt r.psi (1/2) then ("high") else ("medium"))
      else if r.ks_significant then ("low")
      else ("none")) := by
  obtain ⟨bs, cs, _, _, hr⟩ := mem_calculate_feature_drift h
  subst hr
  rfl

/-- Witness for the amended C2 at a concrete record. -/
theorem claim2_amended_severity_witness :
    r0.drift_severity =
      (if nanGt r0.psi d0.psi_threshold then
        (if nanGt r0.psi (1/2) then ("high") else ("medium"))
      else if r0.ks_significant then ("low")
      else ("none")) :=
  claim2_amended_severity M0 d0 df0 df0 (some ["x"]) ("x") r0 (by decide)

/-- Counterexample to C2 as stated: under a configuration with PSI
threshold 4, a record whose PSI is 16/5 (strictly above 0.5) gets
severity none, not high. -/
theorem claim2_counterexample :
    dC2.calculate_feature_drift MC2 bdC2 cdC2 (some ["x"]) = [(("x"), rC2)] ∧
      rC2.psi = some (16/5) ∧ nanGt rC2.psi (1/2) = true ∧
      rC2.drift_severity = ("none") := by
  decide

/-- Claim C10: a record whose PSI is the NaN sentinel has psi_alert
false, severity neither medium nor high, and has_drift equal to
ks_significant alone. -/
theorem claim10_nan_psi (M : MathLib) (d : DriftDetector) (bd cd : DataFrame)
    (cols : Option (List String)) (col : String) (r : FeatureDriftRecord)
    (h : (col, r) ∈ d.calculate_feature_drift M bd cd cols) (hnan : r.psi = none) :
    r.psi_alert = false ∧ r.drift_severity ≠ ("medium") ∧ r.drift_severity ≠ ("high") ∧
      r.has_drift = r.ks_significant := by
  obtain ⟨bs, cs, _, _, hr⟩ := mem_calculate_feature_drift h
  subst hr
  simp only [DriftDetector.mkFeatureRecord] at hnan ⊢
  rw [hnan]
  simp only [nanGt, Bool.false_or]
  refine ⟨trivial, ?_, ?_, trivial⟩ <;>
    cases (ksResult M bs cs).significant <;> simp

/-- Witness for C10 at a concrete record with NaN PSI. -/
theorem claim10_nan_psi_witness :
    rN.psi_alert = false ∧ rN.drift_severity ≠ ("medium") ∧ rN.drift_severity ≠ ("high") ∧
      rN.has_drift = rN.ks_significant :=
  claim10_nan_psi M0 d0 bdN cdN (some ["x"]) ("x") rN (by decide) (by decide)

/-- Claim C3, amended: when both cleaned samples are non-empty, an
unrecognized test tag raises the invalid-argument (ValueError) error,
which propagates; when either cleaned sample is empty the sentinel
shape is returned before the tag is examined. -/
theorem claim3_amended_invalid_tag (M : MathLib) (baseline current : Sample) (t : String)
    (hb : dropna baseline ≠ []) (hc : dropna current ≠ [])
    (h1 : t ≠ ("ks")) (h2 : t ≠ ("mannwhitney")) :
    compare_distributions M baseline current t = Except.error ("Unknown test type: " ++ t) := by
  unfold compare_distributions
  simp only [isEmpty_false_of_ne_nil hb, isEmpty_false_of_ne_nil hc]
  simp [h1, h2]

/-- Witness for the amended C3 at a concrete input. -/
theorem claim3_amended_invalid_tag_witness :
    compare_distributions M0 [some 1] [some 1] ("bogus") =
      Except.error ("Unknown test type: " ++ "bogus") :=
  claim3_amended_invalid_tag M0 [some 1] [some 1] ("bogus")
    (by decide) (by decide) (by decide) (by decide)

/-- Counterexample to C3 as stated: with an empty baseline sample the
unrecognized tag does not raise; the sentinel result is returned. -/
theorem claim3_counterexample :
    compare_distributions M0 ([] : Sample) [some 1] ("bogus") =
      Except.ok { statistic := none, p_value := none, significant := false } := rfl

/-- Claim C5, amended: degradation is baseline minus current;
degradation_pct is degradation / baseline * 100 when baseline > 0 and
0 otherwise (in particular 0 when baseline is 0); the accuracy alert
level uses the two configured thresholds scaled by 100, the other
three metrics use the fixed 10/5 thresholds. -/
theorem claim5_amended_performance (d : DriftDetector) (bm cm : List (String × ℚ))
    (m : String) (r : PerformanceRecord) (h : (m, r) ∈ d.compare_performance bm cm) :
    r.degradation = r.baseline - r.current ∧
      r.degradation_pct = (if r.baseline > 0 then r.degradation / r.baseline * 100 else 0) ∧
      r.alert_level =
        (if m = ("accuracy") then
          (if r.degradation_pct ≥ d.accuracy_critical_threshold * 100 then ("critical")
           else if r.degradation_pct ≥ d.accuracy_degradation_threshold * 100 then ("warning")
           else ("none"))
         else
          (if r.degradation_pct ≥ 10 then ("critical")
           else if r.degradation_pct ≥ 5 then ("warning")
           else ("none"))) := by
  obtain ⟨b, c, _, _, hr⟩ := mem_compare_performance h
  subst hr
  exact ⟨rfl, rfl, rfl⟩

/-- Witness for the amended C5: baseline accuracy 0.95 vs current
0.90 (a 5.26 percent relative drop). -/
theorem claim5_amended_performance_witness :
    rA.degradation = rA.baseline - rA.current ∧
      rA.degradation_pct = (if rA.baseline > 0 then rA.degradation / rA.baseline * 100 else 0) ∧
      rA.alert_level =
        (if ("accuracy") = ("accuracy") then
          (if rA.degradation_pct ≥ d0.accuracy_critical_threshold * 100 then ("critical")
           else if rA.degradation_pct ≥ d0.accuracy_degradation_threshold * 100 then ("warning")
           else ("none"))
         else
          (if rA.degradation_pct ≥ 10 then ("critical")
           else if rA.degradation_pct ≥ 5 then ("warning")
           else ("none"))) :=
  claim5_amended_performance d0 [(("accuracy"), 19/20)] [(("accuracy"), 9/10)]
    ("accuracy") rA (by decide)

/-- Counterexample to C5 as stated: for a negative baseline the source
sets degradation_pct to 0, while the claimed formula gives -100. -/
theorem claim5_counterexample :
    d0.compare_performance [(("accuracy"), -1)] [(("accuracy"), -2)] = [(("accuracy"), rC5)] ∧
      rC5.degradation_pct = 0 ∧ rC5.baseline ≠ 0 ∧
      rC5.degradation / rC5.baseline * 100 = -100 := by
  decide

/-- Claim C7: when either sample is empty after dropping missing
values, calculate_psi returns the NaN sentinel and
compare_distributions returns the undefined-result shape (NaN
statistic, NaN p-value, significant false), and neither raises (the
comparator stays in the Except.ok branch for every tag). -/
theorem claim7_empty_sentinels (M : MathLib) (lg : ℚ → ℚ) (baseline current : Sample)
    (bins : ℕ) (t : String) (h : dropna baseline = [] ∨ dropna current = []) :
    calculate_psi lg baseline current bins = none ∧
      compare_distributions M baseline current t =
        Except.ok { statistic := none, p_value := none, significant := false } := by
  have hcond : ((dropna baseline).isEmpty || (dropna current).isEmpty) = true := by
    rcases h with h | h <;> simp [h]
  refine ⟨?_, ?_⟩ <;> simp [calculate_psi, compare_distributions, hcond]

/-- Witness for C7 at a concrete degenerate input. -/
theorem claim7_empty_sentinels_witness :
    calculate_psi (fun q => q) [none] [some 1] 10 = none ∧
      compare_distributions M0 [none] [some 1] ("bogus") =
        Except.ok { statistic := none, p_value := none, significant := false } :=
  claim7_empty_sentinels M0 (fun q => q) [none] [some 1] 10 ("bogus") (Or.inl (by decide))

/-- Claim C9: for a sample that is non-empty after dropping missing
values and has distinct min and max, comparing it against itself gives
PSI exactly 0, in particular below 0.1. -/
theorem claim9_identity (lg : ℚ → ℚ) (X : Sample) (bins : ℕ)
    (hne : dropna X ≠ []) (hmm : listMin (dropna X) ≠ listMax (dropna X)) :
    calculate_psi lg X X bins = some 0 ∧
      ∀ q, calculate_psi lg X X bins = some q → q < 1/10 := by
  have hz : ∀ P : List ℚ, psiSum lg P P = 0 := by
    intro P
    unfold psiSum
    induction P with
    | nil => rfl
    | cons x tl ih => simp [ih]
  have hmain : calculate_psi lg X X bins = some 0 := by
    unfold calculate_psi
    simp only [isEmpty_false_of_ne_nil hne, Bool.or_self, Bool.false_eq_true, if_false,
      min_self, max_self]
    rw [if_neg hmm]
    rw [hz]
  refine ⟨hmain, ?_⟩
  intro q hq
  rw [hmain] at hq
  obtain rfl : q = 0 := (Option.some.inj hq).symm
  norm_num

/-- Witness for C9 at a concrete non-degenerate sample. -/
theorem claim9_identity_witness :
    calculate_psi (fun q => q) [some 0, some 1] [some 0, some 1] 10 = some 0 :=
  (claim9_identity (fun q => q) [some 0, some 1] 10 (by decide) (by decide)).1

theorem filterMap_ext {α β : Type} (f g : α → Option β) (hfg : ∀ x, f x = g x)
    (l : List α) : l.filterMap f = l.filterMap g := by
  induction l with
  | nil => rfl
  | cons x t ih => simp only [List.filterMap_cons, hfg x, ih]

theorem perfAlert_eq_spec (metric_name : String) (r : PerformanceRecord) :
    perfAlert? metric_name r = specPerfAlert metric_name r := by
  unfold perfAlert? specPerfAlert
  by_cases h1 : r.alert_level = ("critical")
  · simp [h1]
  · by_cases h2 : r.alert_level = ("warning")
    · simp [h1, h2]
    · simp [h1, h2]

theorem generate_alerts_eq_spec (feature_drift : List (String × FeatureDriftRecord))
    (performance_drift : List (String × PerformanceRecord)) :
    generate_alerts feature_drift performance_drift =
      specAlerts feature_drift performance_drift := by
  unfold generate_alerts specAlerts
  congr 1
  exact filterMap_ext _ _ (fun p => perfAlert_eq_spec p.1 p.2) performance_drift

/-- Claim C4: the alert list of every detect_drift report is exactly
the spec's derivation rule: per feature record, a feature_drift alert
(critical above PSI 0.5, else warning, with PSI and mean-shift-pct)
when psi_alert holds, else a warning alert (with the p-value) when
ks_significant holds; per performance record with level critical or
warning, a performance_degradation alert at that level; feature order
first, then performance order, no deduplication. -/
theorem claim4_alert_derivation :
    (∀ (fd : List (String × FeatureDriftRecord)) (pd : List (String × PerformanceRecord)),
      generate_alerts fd pd = specAlerts fd pd) ∧
    (∀ (M : MathLib) (d : DriftDetector) (bd cd : DataFrame) (bm cm : List (String × ℚ))
      (cols : Option (List String)),
      (d.detect_drift M bd cd bm cm cols).alerts =
        specAlerts (d.calculate_feature_drift M bd cd cols) (d.compare_performance bm cm)) :=
  ⟨generate_alerts_eq_spec,
    fun _ _ _ _ _ _ _ => generate_alerts_eq_spec _ _⟩

/-- Claim C8: the keys of the feature-drift mapping are exactly the
requested features present in both DataFrames, in request order; a
feature absent from either side is skipped (and nothing raises, the
function being total), the others are all analyzed. -/
theorem claim8_missing_columns (M : MathLib) (d : DriftDetector) (bd cd : DataFrame)
    (cols : List String) :
    (d.calculate_feature_drift M bd cd (some cols)).map Prod.fst =
      cols.filter (fun c => (alistGet? bd c).isSome && (alistGet? cd c).isSome) := by
  unfold DriftDetector.calculate_feature_drift
  simp only [Option.getD_some]
  induction cols with
  | nil => rfl
  | cons c t ih =>
    rw [List.filterMap_cons, List.filter_cons]
    cases hb : alistGet? bd c with
    | none => simpa [hb] using ih
    | some bs =>
      cases hc : alistGet? cd c with
      | none => simpa [hb, hc] using ih
      | some cs => simpa [hb, hc] using ih

theorem foldl_min_eq (l : List ℚ) : ∀ z : ℚ, l ≠ [] → l.foldl min z = min z (listMin l) := by
  induction l with
  | nil => intro z h; exact absurd rfl h
  | cons y ys ih =>
    intro z _
    by_cases hys : ys = []
    · subst hys; simp [listMin]
    · simp only [List.foldl_cons, listMin]
      rw [ih (min z y) hys, ih y hys, min_assoc]

theorem foldl_max_eq (l : List ℚ) : ∀ z : ℚ, l ≠ [] → l.foldl max z = max z (listMax l) := by
  induction l with
  | nil => intro z h; exact absurd rfl h
  | cons y ys ih =>
    intro z _
    by_cases hys : ys = []
    · subst hys; simp [listMax]
    · simp only [List.foldl_cons, listMax]
      rw [ih (max z y) hys, ih y hys, max_assoc]

theorem listMin_append (e a : List ℚ) (he : e ≠ []) (ha : a ≠ []) :
    listMin (e ++ a) = min (listMin e) (listMin a) := by
  cases e with
  | nil => exact absurd rfl he
  | cons x xs =>
    show listMin (x :: (xs ++ a)) = min (listMin (x :: xs)) (listMin a)
    simp only [listMin, List.foldl_append]
    exact foldl_min_eq a (List.foldl min x xs) ha

theorem listMax_append (e a : List ℚ) (he : e ≠ []) (ha : a ≠ []) :
    listMax (e ++ a) = max (listMax e) (listMax a) := by
  cases e with
  | nil => exact absurd rfl he
  | cons x xs =>
    show listMax (x :: (xs ++ a)) = max (listMax (x :: xs)) (listMax a)
    simp only [listMax, List.foldl_append]
    exact foldl_max_eq a (List.foldl max x xs) ha

theorem sum_map_range (f : ℕ → ℚ) (n : ℕ) :
    ((List.range n).map f).sum = Finset.sum (Finset.range n) f := by
  induction n with
  | zero => rfl
  | succ n ih =>
    rw [List.range_succ, List.map_append, List.sum_append, Finset.sum_range_succ, ih]
    simp

theorem zipWith_map_sum (K : ℚ → ℚ → ℚ) (f g : ℕ → ℚ) (L : List ℕ) :
    (List.zipWith K (L.map g) (L.map f)).sum = (L.map (fun x => K (g x) (f x))).sum := by
  induction L with
  | nil => rfl
  | cons x t ih => simp [ih]

theorem psiSum_ranges (lg : ℚ → ℚ) (fe fa : ℕ → ℚ) (n : ℕ) :
    psiSum lg ((List.range n).map fe) ((List.range n).map fa) =
      Finset.sum (Finset.range n) (fun i => (fa i - fe i) * lg (fa i / fe i)) := by
  unfold psiSum
  rw [zipWith_map_sum (fun a e => (a - e) * lg (a / e)) fe fa (List.range n)]
  exact sum_map_range _ n

theorem probs_as_map (l : List ℚ) (lo hi : ℚ) (bins : ℕ) :
    zeroToEps (normalize (histCounts l lo hi bins) l.length) =
      (List.range bins).map (fun i =>
        if ((l.countP (fun v => inBin lo hi bins i v) : ℚ) / l.length) = 0 then epsPSI
        else ((l.countP (fun v => inBin lo hi bins i v) : ℚ) / l.length)) := by
  unfold zeroToEps normalize histCounts
  rw [List.map_map, List.map_map]
  rfl

theorem inBin_eq_specInBin (lo hi : ℚ) (bins i : ℕ) (hib : i < bins) (v : ℚ) :
    inBin lo hi bins i v = specInBin lo hi bins i v := by
  have hbpos : 0 < bins := Nat.lt_of_le_of_lt (Nat.zero_le i) hib
  have hb0 : (bins : ℚ) ≠ 0 := (Nat.cast_pos.mpr hbpos).ne'
  have e1 : binEdge lo hi bins i = lo + (i : ℚ) * specBinWidth lo hi bins := by
    unfold binEdge specBinWidth; ring
  have e2 : binEdge lo hi bins bins = hi := by
    unfold binEdge
    rw [mul_div_assoc, div_self hb0, mul_one]
    ring
  have e3 : binEdge lo hi bins (i + 1) = lo + ((i : ℚ) + 1) * specBinWidth lo hi bins := by
    unfold binEdge specBinWidth; push_cast; ring
  unfold inBin specInBin
  by_cases hlast : i + 1 = bins
  · rw [if_pos hlast, if_pos hlast, decide_eq_decide, e1, e2]
  · rw [if_neg hlast, if_neg hlast, decide_eq_decide, e1, e3]

theorem codeProb_eq_specBinProb (l : List ℚ) (lo hi : ℚ) (bins i : ℕ) (hib : i < bins) :
    (if ((l.countP (fun v => inBin lo hi bins i v) : ℚ) / l.length) = 0 then epsPSI
     else ((l.countP (fun v => inBin lo hi bins i v) : ℚ) / l.length)) =
      specBinProb l lo hi bins i := by
  have hpred : (fun v => inBin lo hi bins i v) = (fun v => specInBin lo hi bins i v) :=
    funext (fun v => inBin_eq_specInBin lo hi bins i hib v)
  unfold specBinProb
  rw [hpred, List.countP_eq_length_filter]
  rfl

/-- Claim C6: for non-empty cleaned samples, calculate_psi returns
exactly 0 when the combined min and max of both cleaned samples
coincide, and otherwise the spec formula: the sum over bin_count
equal-width bins spanning the combined range of (actual_p -
expected_p) * log(actual_p / expected_p), with the per-bin occupancy
probabilities floored at 1e-6. -/
theorem claim6_psi_formula (lg : ℚ → ℚ) (expected actual : Sample) (bins : ℕ)
    (he : dropna expected ≠ []) (ha : dropna actual ≠ []) :
    calculate_psi lg expected actual bins =
      some (if listMin (dropna expected ++ dropna actual) =
              listMax (dropna expected ++ dropna actual)
            then 0 else psiSpec lg (dropna expected) (dropna actual) bins) := by
  have hmin := listMin_append (dropna expected) (dropna actual) he ha
  have hmax := listMax_append (dropna expected) (dropna actual) he ha
  unfold calculate_psi psiSpec
  simp only [isEmpty_false_of_ne_nil he, isEmpty_false_of_ne_nil ha, Bool.or_self,
    Bool.false_eq_true, if_false]
  rw [hmin, hmax]
  by_cases hdeg : min (listMin (dropna expected)) (listMin (dropna actual)) =
      max (listMax (dropna expected)) (listMax (dropna actual))
  · rw [if_pos hdeg, if_pos hdeg]
  · rw [if_neg hdeg, if_neg hdeg]
    congr 1
    rw [probs_as_map, probs_as_map, psiSum_ranges]
    apply Finset.sum_congr rfl
    intro i hi
    have hib : i < bins := Finset.mem_range.mp hi
    rw [codeProb_eq_specBinProb (dropna expected) _ _ bins i hib,
        codeProb_eq_specBinProb (dropna actual) _ _ bins i hib]

/-- Witness for C6 at a concrete non-degenerate pair of samples. -/
theorem claim6_psi_formula_witness :
    calculate_psi (fun q => q) [some 0] [some 1] 10 =
      some (if listMin (dropna [some 0] ++ dropna [some 1]) =
              listMax (dropna [some 0] ++ dropna [some 1])
            then 0 else psiSpec (fun q => q) (dropna [some 0]) (dropna [some 1]) 10) :=
  claim6_psi_formula (fun q => q) [some 0] [some 1] 10 (by decide) (by decide)

end Drift
